import Mathlib

/-!
Verification of the authentication/session subsystem of a social-network
backend (`src/backend/src/modules/auth/auth.service.ts`), shallowly embedded
over its Prisma data model (`src/backend/prisma/generated/schema.prisma`).

Modelling conventions:
* Database rows are Lean structures; each store is a list, in insertion order.
  Prisma `findFirst` is `List.find?`; `findFirst` with `orderBy createdAt desc`
  picks the matching row with the greatest `createdAt`.
* Timestamps are natural numbers (milliseconds); `Date.now()` is a `now`
  argument threaded through each operation.
* External collaborators (argon2 `hash`/`verify`, the `ua-parser-js` parser,
  JWT verification, token/id generation) are parameters: each operation takes
  the relevant functions or precomputed results as arguments.
* Thrown Nest exceptions become `Except AuthError`; every stateful operation
  returns its resulting database paired with the outcome, errors leaving the
  database unchanged exactly where the source throws before writing.
* JavaScript truthiness is modelled explicitly where the source relies on it
  (empty strings are falsy; a found row is truthy).
-/

/-- One `User` row (`schema.prisma`, `model User`), restricted to the fields
the auth service reads or writes.  `primaryEmailValue` is the value of the
1:1 required `primaryEmail` relation. -/
structure User where
  id : String
  profileId : String
  primaryEmailValue : String
  hashedPassword : String
  displayName : String
deriving Repr, DecidableEq

/-- One `Session` row (`schema.prisma`, `model Session`), restricted to the
fields the auth service reads or writes. -/
structure Session where
  id : String
  userId : String
  revoked : Bool
  refreshTokenHashed : Option String
  deviceName : String
  userAgent : String
  ipAddress : String
  createdAt : Nat
deriving Repr, DecidableEq

/-- `enum TypeCode` of `schema.prisma`. -/
inductive TypeCode
  | VERIFICATION
  | RESETPASSWORD
  | REACTIVE
  | RECOVERY
deriving Repr, DecidableEq

/-- One `Code` row (`schema.prisma`, `model Code`): compound-unique on
`(userId, type)` (named `id`), holding a token list and timestamps. -/
structure Code where
  userId : String
  type : TypeCode
  tokens : List String
  createdAt : Nat
  expiresAt : Nat
deriving Repr, DecidableEq

/-- The relational state the auth service touches. -/
structure Db where
  users : List User
  sessions : List Session
  codes : List Code
deriving Repr, DecidableEq

/-- The Nest exceptions thrown by the auth service, plus `Internal` for an
uncaught store error (a Prisma operation that rejects, e.g. a nested delete
of a non-existent row), which Nest surfaces as a generic 500. -/
inductive AuthError
  | NotFound
  | Unauthorized
  | Conflict
  | Forbidden
  | Internal
deriving Repr, DecidableEq

/-- Decidable equality for outcomes, so that concrete runs of the embedded
operations can be checked by `decide`. -/
instance exceptDecEq {ε α : Type} [DecidableEq ε] [DecidableEq α] :
    DecidableEq (Except ε α)
  | Except.ok a, Except.ok b =>
    if h : a = b then isTrue (by rw [h]) else isFalse (by intro hc; cases hc; exact h rfl)
  | Except.ok _, Except.error _ => isFalse (by intro hc; cases hc)
  | Except.error _, Except.ok _ => isFalse (by intro hc; cases hc)
  | Except.error e, Except.error f =>
    if h : e = f then isTrue (by rw [h]) else isFalse (by intro hc; cases hc; exact h rfl)

/-- `const MAXINUM_AVAILABLE_TIME = 5 * 60_000` (auth.service.ts line 16). -/
def MAXINUM_AVAILABLE_TIME : Nat := 5 * 60000

/-- `const MIN_TIME_TO_REQUEST = 60_000` (auth.service.ts line 17). -/
def MIN_TIME_TO_REQUEST : Nat := 60000

/-- Modelled from the spec: `UsersService.findPrimaryUserByEmail`
(`users.service.ts` is not among the provided sources; only its call sites
are).  Per the spec, the primary email uniquely identifies an account, so the
lookup returns the user whose primary email value equals `email`, if any. -/
def findPrimaryUserByEmail (db : Db) (email : String) : Option User :=
  db.users.find? fun u => u.primaryEmailValue == email

/-- `prismaService.code.findFirst({ where: { tokens: { has: code } } })`
(auth.service.ts lines 248-250): the first Code row, of any user and any
type, whose token list contains `code`. -/
def findCodeByToken (codes : List Code) (code : String) : Option Code :=
  codes.find? fun c => c.tokens.contains code

/-- `prismaService.code.upsert({ where: { id: { type, userId } }, ... })`
(auth.service.ts lines 226-238 and 286-298): if a row with this compound key
exists, only `tokens` and `expiresAt` are updated (Prisma leaves `createdAt`
untouched); otherwise a fresh row is created with `createdAt` defaulting to
now (`@default(now())` in the schema). -/
def upsertCode (codes : List Code) (uid : String) (ty : TypeCode)
    (tokens : List String) (now expiresAt : Nat) : List Code :=
  if codes.any fun c => c.userId == uid && c.type == ty then
    codes.map fun c =>
      if c.userId == uid && c.type == ty then
        { c with tokens := tokens, expiresAt := expiresAt }
      else c
  else
    codes ++ [{ userId := uid, type := ty, tokens := tokens,
                createdAt := now, expiresAt := expiresAt }]

/-- The `prismaService.user.update` of `confirmRecoveryAccount`
(auth.service.ts lines 260-266): sets the user's `hashedPassword` to the hash
of `newPassword` and, nested in the same update, deletes the
`(userId, VERIFICATION)` Code row.  Prisma nested writes are atomic: if the
target user or the nested `(userId, VERIFICATION)` row does not exist the
whole update rejects and no field changes, surfaced as `Internal`. -/
def updatePasswordDeletingVerification (hashF : String → String) (db : Db)
    (uid newPassword : String) : Db × Except AuthError Unit :=
  match db.users.find? fun u => u.id == uid with
  | none => (db, .error .Internal)
  | some _ =>
    if db.codes.any fun c => c.userId == uid && c.type == TypeCode.VERIFICATION then
      ({ db with
          users := db.users.map fun u =>
            if u.id == uid then { u with hashedPassword := hashF newPassword } else u,
          codes := db.codes.filter fun c =>
            !(c.userId == uid && c.type == TypeCode.VERIFICATION) },
       .ok ())
    else (db, .error .Internal)

/-- `recoveryAccount(email)` (auth.service.ts lines 200-245): look the user up
by primary email (`NotFound` if absent), generate a one-time code (`genCode`,
produced by the external `tokenService.generateCode()`), upsert the
`(userId, RECOVERY)` Code row with a 5-minute expiry, and email the code to
`email`.  The `.ok` payload is the `sendResetPasswordAccount` call's
`(recipient, code)` pair. -/
def recoveryAccount (genCode : String) (now : Nat) (db : Db) (email : String) :
    Db × Except AuthError (String × String) :=
  match findPrimaryUserByEmail db email with
  | none => (db, .error .NotFound)
  | some user =>
    ({ db with codes := upsertCode db.codes user.id TypeCode.RECOVERY [genCode]
                 now (now + MAXINUM_AVAILABLE_TIME) },
     .ok (email, genCode))

/-- `confirmRecoveryAccount(email, code, newPassword)` (auth.service.ts lines
247-273): find the first Code row (any user, any type) containing `code`;
`Conflict` if it exists and less than 60 s have passed since its creation;
`Unauthorized` if no row contains the code or more than 5 minutes have passed
since the row's creation; otherwise update the owner's password hash while
deleting that owner's `(userId, VERIFICATION)` row in the same atomic update.
The `.ok` payload is the recipient of `sendNotificationResetPassword`, which
is the `email` argument. -/
def confirmRecoveryAccount (hashF : String → String) (now : Nat) (db : Db)
    (email code newPassword : String) : Db × Except AuthError String :=
  match findCodeByToken db.codes code with
  | none => (db, .error .Unauthorized)
  | some row =>
    if now < row.createdAt + MIN_TIME_TO_REQUEST then
      (db, .error .Conflict)
    else if ¬ row.tokens.contains code ∨ row.createdAt + MAXINUM_AVAILABLE_TIME < now then
      (db, .error .Unauthorized)
    else
      match updatePasswordDeletingVerification hashF db row.userId newPassword with
      | (db2, .ok ()) => (db2, .ok email)
      | (db2, .error e) => (db2, .error e)

/-- The parts of the incoming `express` request the auth service reads:
the `x-forwarded-for` header, the socket's remote address, the `user-agent`
header, and the persisted `session_id` cookie.  `none` is an absent
header/cookie. -/
structure Req where
  xForwardedFor : Option String
  remoteAddr : Option String
  userAgent : Option String
  cookieSessionId : Option String
deriving Repr, DecidableEq

/-- `extractIp(req)` (auth.service.ts lines 87-90):
`xForwardedFor?.split(',')[0] || req.socket.remoteAddress || ''`, with
JavaScript falsiness: an empty first list entry falls through to the remote
address, an absent remote address yields the empty string. -/
def extractIp (req : Req) : String :=
  let fromHeader :=
    match req.xForwardedFor with
    | some s => (s.splitOn ",").headD ""
    | none => ""
  if fromHeader ≠ "" then fromHeader
  else
    match req.remoteAddr with
    | some r => r
    | none => ""

/-- The external `ua-parser-js` parser, as the two lookups the service makes:
`browserName ua` is `new UAParser(ua).getBrowser().name` and `osName ua` is
`.getOS().name`, with `none` for an undefined (or empty, hence falsy) name. -/
structure UAEnv where
  browserName : String → Option String
  osName : String → Option String

/-- `getDeviceName(userAgent)` (auth.service.ts lines 93-98): the string
`"{browser} on {os}"`, falling back to `"Unknown browser"` / `"Unknown OS"`
when the parser yields nothing. -/
def getDeviceName (env : UAEnv) (userAgent : String) : String :=
  ((env.browserName userAgent).getD "Unknown browser") ++ " on " ++
    ((env.osName userAgent).getD "Unknown OS")

/-- Whether a session row matches the login request's user, device name and
IP — the `where` clause of `detectDevice`. -/
def sessionMatches (userId ip deviceName : String) (s : Session) : Bool :=
  s.userId == userId && s.deviceName == deviceName && s.ipAddress == ip

/-- `detectDevice(userId, ip, deviceName)` (auth.service.ts lines 111-116):
`session.findFirst({ where: { userId, deviceName, ipAddress: ip }, orderBy:
{ createdAt: 'desc' } })` — the most recently created session row matching
the triple, or `none` when no row matches.  Note the name: the call returns
an EXISTING matching session, which is truthy in JavaScript exactly when the
device is already known. -/
def detectDevice (db : Db) (userId ip deviceName : String) : Option Session :=
  (db.sessions.filter (sessionMatches userId ip deviceName)).foldl
    (fun acc s =>
      match acc with
      | none => some s
      | some t => if t.createdAt < s.createdAt then some s else some t)
    none

/-- The external token machinery of `createSession`: the signed access and
refresh tokens minted by `tokenService.generateTokens`, the hash applied to
the refresh token before persistence, and the store-generated id for a newly
created session row. -/
structure TokenEnv where
  accessToken : String
  refreshToken : String
  hashToken : String → String
  newSessionId : String

/-- Modelled from the spec: `TokenService.storeRefreshToken`
(`token.service.ts` is not among the provided sources; only its call site
is).  Per the spec (§4.2), the refresh token is hashed before persistence —
the raw token is never stored; if an existing session id is supplied and a
row with that id exists, that row is reused/updated in place (device/IP
metadata and token hash refreshed, revocation cleared not being mentioned is
left untouched); otherwise a new Session row is created.  Returns the row. -/
def storeRefreshToken (env : TokenEnv) (now : Nat) (db : Db) (userId : String)
    (existingSessionId : Option String) (deviceName ipAddress userAgent : String) :
    Db × Session :=
  match existingSessionId.bind (fun sid => db.sessions.find? fun s => s.id == sid) with
  | some s =>
    let s2 : Session :=
      { s with refreshTokenHashed := some (env.hashToken env.refreshToken),
               deviceName := deviceName, ipAddress := ipAddress, userAgent := userAgent }
    ({ db with sessions := db.sessions.map fun t => if t.id == s.id then s2 else t }, s2)
  | none =>
    let s2 : Session := { id := env.newSessionId, userId := userId, revoked := false,
                          refreshTokenHashed := some (env.hashToken env.refreshToken),
                          deviceName := deviceName, userAgent := userAgent,
                          ipAddress := ipAddress, createdAt := now }
    ({ db with sessions := db.sessions ++ [s2] }, s2)

/-- `createSession(userId, res, req)` (auth.service.ts lines 335-373): derive
ip / user agent / device name from the request, mint tokens, and persist the
refresh token against the session id carried in the `session_id` cookie (if
any); cookie writing is HTTP plumbing outside the store model. -/
def createSession (ua : UAEnv) (tok : TokenEnv) (now : Nat) (db : Db)
    (userId : String) (req : Req) : Db × Session :=
  let ipAddress := extractIp req
  let userAgent := req.userAgent.getD "Unknown"
  let deviceName := getDeviceName ua userAgent
  storeRefreshToken tok now db userId req.cookieSessionId deviceName ipAddress userAgent

/-- The observable outcome of a successful `login`: whether (and to whom)
`sendDetectOtherDevice` was emitted — `(email, ip, userAgent, deviceName)` —
and the resulting session row's id and owner. -/
structure LoginOut where
  newDeviceEmail : Option (String × String × String × String)
  sessionId : String
  userId : String
deriving Repr, DecidableEq

/-- `login(data, res, req)` (auth.service.ts lines 398-435): find the user by
primary email (`NotFound` if absent), verify the password against the stored
hash (`Unauthorized` if it fails, before any write), fingerprint the device,
call `detectDevice`, and — `if (isNew)` — email `sendDetectOtherDevice`;
JavaScript truthiness makes this fire exactly when `detectDevice` FOUND a
matching prior session.  Then create the session. -/
def login (ua : UAEnv) (tok : TokenEnv) (verifyF : String → String → Bool)
    (now : Nat) (db : Db) (email password : String) (req : Req) :
    Db × Except AuthError LoginOut :=
  match db.users.find? fun u => u.primaryEmailValue == email with
  | none => (db, .error .NotFound)
  | some user =>
    if verifyF user.hashedPassword password then
      let ip := extractIp req
      let userAgent := req.userAgent.getD "Unknown"
      let deviceName := getDeviceName ua userAgent
      let isNew := detectDevice db user.id ip deviceName
      let newDeviceEmail :=
        if isNew.isSome then some (user.primaryEmailValue, ip, userAgent, deviceName)
        else none
      let res := createSession ua tok now db user.id req
      (res.1, .ok { newDeviceEmail := newDeviceEmail, sessionId := res.2.id,
                    userId := user.id })
    else (db, .error .Unauthorized)

/-- JavaScript `a || b` on possibly-absent strings: an absent or empty left
operand falls through to the right one. -/
def jsOrStr (a b : Option String) : Option String :=
  match a with
  | some s => if s ≠ "" then some s else b
  | none => b

/-- `logout(res, sessionId?)` (auth.service.ts lines 375-396).  First
`session = session.findFirst({ where: { id: sessionId } })`: when the
argument is absent, Prisma ignores the undefined filter and this returns the
FIRST row of the whole session table.  Then `sid = sessionId ||
cookies.session_id`; `NotFound` when `sid` is falsy.  Finally
`session.updateMany({ where: { id: sid, userId: session?.userId }, data:
{ refreshTokenHashed: null, revoked: true } })` — the owner filter comes from
the earlier lookup (absent, hence ignored, when that lookup found nothing). -/
def logout (db : Db) (cookieSessionId : Option String) (sessionId : Option String) :
    Db × Except AuthError Unit :=
  let session : Option Session :=
    match sessionId with
    | some sid => db.sessions.find? fun s => s.id == sid
    | none => db.sessions.head?
  match jsOrStr sessionId cookieSessionId with
  | none => (db, .error .NotFound)
  | some sid =>
    if sid = "" then (db, .error .NotFound)
    else
      ({ db with sessions := db.sessions.map fun t =>
           if t.id == sid && (match session with
                              | some s => t.userId == s.userId
                              | none => true) then
             { t with revoked := true, refreshTokenHashed := none }
           else t },
       .ok ())

/-- `registerUser(body)` (auth.service.ts lines 119-149): `Conflict` when the
email is already some account's primary email; otherwise hash the password,
create the user with a generated snowflake `profileId` (`newProfileId`) and a
store-generated id (`newId`), and return the created row — hashed password
included. -/
def registerUser (hashF : String → String) (newId newProfileId : String) (db : Db)
    (email password displayName : String) : Db × Except AuthError User :=
  match findPrimaryUserByEmail db email with
  | some _ => (db, .error .Conflict)
  | none =>
    let newUser : User := { id := newId, profileId := newProfileId,
                            primaryEmailValue := email, hashedPassword := hashF password,
                            displayName := displayName }
    ({ db with users := db.users ++ [newUser] }, .ok newUser)

/-- `const MAX_TIME_SAVE = 60 * 60 * 24 * 30` — 30 days in seconds
(auth.service.ts line 152). -/
def MAX_TIME_SAVE : Nat := 60 * 60 * 24 * 30

/-- The Redis store as the list of `set(key, value, expiry)` calls made:
`redisService.set` appends a `(key, value, expirySeconds)` entry. -/
structure Redis where
  entries : List (String × String × Nat)
deriving Repr, DecidableEq

/-- `changePassword(data, req)` (auth.service.ts lines 151-198):
`Unauthorized` when `req.user?.id` is falsy; `NotFound` when the user row is
gone; `Unauthorized` when the old password does not verify; on success,
FIRST `redisService.set(userId, oldPassword, MAX_TIME_SAVE)` — the plaintext
old password, keyed by user id, 30-day expiry — THEN store the hash of the
new password on the user row.  The `.ok` payload is the updated row (the
HTTP layer strips `hashedPassword` from the response). -/
def changePassword (hashF : String → String) (verifyF : String → String → Bool)
    (db : Db) (redis : Redis) (reqUserId : Option String)
    (oldPassword newPassword : String) : (Db × Redis) × Except AuthError User :=
  match jsOrStr reqUserId none with
  | none => ((db, redis), .error .Unauthorized)
  | some uid =>
    match db.users.find? fun u => u.id == uid with
    | none => ((db, redis), .error .NotFound)
    | some user =>
      if verifyF user.hashedPassword oldPassword then
        let redis2 : Redis := { entries := redis.entries ++ [(uid, oldPassword, MAX_TIME_SAVE)] }
        let user2 : User := { user with hashedPassword := hashF newPassword }
        (({ db with users := db.users.map fun v =>
              if v.id == uid then { v with hashedPassword := hashF newPassword } else v },
           redis2),
         .ok user2)
      else ((db, redis), .error .Unauthorized)

/-- The inputs `validate` gets from outside the store: the result of
`jwtService.verifyAsync` (`some sub` — the token's subject claim — when the
signature/expiry check passes, `none` when it throws), and fault flags for
the two store lookups, modelling an unexpected store failure (a rejected
promise) at either point. -/
structure ValidateEnv where
  jwtSub : Option String
  userLookupFault : Bool
  sessionLookupFault : Bool
deriving Repr, DecidableEq

/-- `validate(accessToken)` (auth.service.ts lines 49-84): verify the token,
find the user by the subject claim, require some session of that user with
`revoked: false`, and return the user; every failure — a failed verify, a
missing user, no non-revoked session, or any error thrown along the way
(store faults included) — is caught and surfaced as `Unauthorized`. -/
def validate (env : ValidateEnv) (db : Db) : Except AuthError User :=
  match env.jwtSub with
  | none => .error .Unauthorized
  | some sub =>
    if env.userLookupFault then .error .Unauthorized
    else
      match db.users.find? fun u => u.id == sub with
      | none => .error .Unauthorized
      | some user =>
        if env.sessionLookupFault then .error .Unauthorized
        else
          match db.sessions.find? fun s => s.userId == user.id && s.revoked == false with
          | none => .error .Unauthorized
          | some _ => .ok user


/-! ### Concrete fixtures for witnesses and counterexamples -/

/-- A model hash: `hash0 p` is `"h:" ++ p`. -/
def hash0 : String → String := fun p => "h:" ++ p

/-- The matching model verifier: `verify0 stored p` checks `stored = hash0 p`
(argon2 `verify(hash, password)` argument order). -/
def verify0 : String → String → Bool := fun stored p => stored == "h:" ++ p

/-- A parser that recognises nothing: every User-Agent is unparseable. -/
def ua0 : UAEnv := { browserName := fun _ => none, osName := fun _ => none }

/-- Fixed token machinery for concrete runs. -/
def tok0 : TokenEnv :=
  { accessToken := "at", refreshToken := "rt", hashToken := fun s => "h:" ++ s,
    newSessionId := "s-new" }

/-- A request from ip `1.2.3.4` with no user-agent header and no cookies. -/
def req0 : Req :=
  { xForwardedFor := none, remoteAddr := some "1.2.3.4", userAgent := none,
    cookieSessionId := none }

/-- A registered user: primary email `a@x.com`, password `pw1`. -/
def userA : User :=
  { id := "u1", profileId := "p1", primaryEmailValue := "a@x.com",
    hashedPassword := "h:pw1", displayName := "A" }

/-- Store holding only `userA`, with no sessions and no codes. -/
def db1 : Db := { users := [userA], sessions := [], codes := [] }

/-- A prior session of `userA` from exactly the device and ip of `req0`
(device name as fingerprinted through `ua0`). -/
def sessKnown : Session :=
  { id := "s0", userId := "u1", revoked := false, refreshTokenHashed := some "x",
    deviceName := "Unknown browser on Unknown OS", userAgent := "Unknown",
    ipAddress := "1.2.3.4", createdAt := 0 }

/-- Store holding `userA` together with the prior session `sessKnown`. -/
def db1k : Db := { users := [userA], sessions := [sessKnown], codes := [] }

/-- C1: the claim says the "new device" email is emitted iff the user has NO
prior session with the current `(ipAddress, deviceName)` pair.  The code does
the opposite: `detectDevice` returns the existing matching session and
`if (isNew)` tests its truthiness, so a first-ever login from a device sends
no email while a login from an already-recorded device does.  Evaluated here
at both sides of the failing input: a successful login of `userA` with no
session rows at all emits no email, and the same login with the matching
prior session `sessKnown` on file does emit one. -/
theorem login_new_device_email_inverted :
    (((login ua0 tok0 verify0 1000 db1 "a@x.com" "pw1" req0).2.map
          LoginOut.newDeviceEmail = Except.ok none)
      ∧ db1.sessions = [])
    ∧ (((login ua0 tok0 verify0 1000 db1k "a@x.com" "pw1" req0).2.map
          LoginOut.newDeviceEmail
        = Except.ok (some ("a@x.com", "1.2.3.4", "Unknown",
                           "Unknown browser on Unknown OS")))
      ∧ sessKnown ∈ db1k.sessions
      ∧ sessionMatches "u1" "1.2.3.4" "Unknown browser on Unknown OS" sessKnown = true) := by
  decide

/-- C6: `login` fails `NotFound` when no user owns the primary email and
`Unauthorized` when the user exists but the password does not verify; in both
error cases the returned state is the input state — in particular no session
row is created or modified on the wrong-password path. -/
theorem login_error_paths (ua : UAEnv) (tok : TokenEnv)
    (verifyF : String → String → Bool) (now : Nat) (db : Db)
    (email password : String) (req : Req) :
    (db.users.find? (fun u => u.primaryEmailValue == email) = none →
      login ua tok verifyF now db email password req
        = (db, Except.error AuthError.NotFound))
    ∧ (∀ u, db.users.find? (fun u => u.primaryEmailValue == email) = some u →
        verifyF u.hashedPassword password = false →
        login ua tok verifyF now db email password req
          = (db, Except.error AuthError.Unauthorized)) := by
  constructor
  · intro h
    simp [login, h]
  · intro u hu hv
    simp [login, hu, hv]

/-- Witness for C6: with only `userA` (password `pw1`) on file, a login under
an unknown email fails `NotFound` and a login with the wrong password fails
`Unauthorized`, both leaving the store untouched. -/
theorem login_error_paths_witness :
    login ua0 tok0 verify0 0 db1 "b@x.com" "pw1" req0
      = (db1, Except.error AuthError.NotFound)
    ∧ login ua0 tok0 verify0 0 db1 "a@x.com" "wrong" req0
      = (db1, Except.error AuthError.Unauthorized) :=
  ⟨(login_error_paths ua0 tok0 verify0 0 db1 "b@x.com" "pw1" req0).1 (by decide),
   (login_error_paths ua0 tok0 verify0 0 db1 "a@x.com" "wrong" req0).2 userA
     (by decide) (by decide)⟩

/-- C3: `confirmRecoveryAccount` fails `Conflict` whenever the row found by
token has existed for fewer than 60 seconds — this fires before any expiry
consideration; past that window it fails `Unauthorized` whenever the row is
more than 5 minutes old (even though the code string matches its token list),
and also `Unauthorized` when no row contains the code at all. -/
theorem confirmRecovery_rate_limit_then_expiry (hashF : String → String)
    (now : Nat) (db : Db) (email code newPassword : String) :
    (∀ row, findCodeByToken db.codes code = some row →
      (now < row.createdAt + MIN_TIME_TO_REQUEST →
        confirmRecoveryAccount hashF now db email code newPassword
          = (db, Except.error AuthError.Conflict))
      ∧ (row.createdAt + MIN_TIME_TO_REQUEST ≤ now →
          row.createdAt + MAXINUM_AVAILABLE_TIME < now →
          confirmRecoveryAccount hashF now db email code newPassword
            = (db, Except.error AuthError.Unauthorized)))
    ∧ (findCodeByToken db.codes code = none →
        confirmRecoveryAccount hashF now db email code newPassword
          = (db, Except.error AuthError.Unauthorized)) := by
  refine ⟨fun row hrow => ⟨fun hrate => ?_, fun hrate hexp => ?_⟩, fun hnone => ?_⟩
  · simp [confirmRecoveryAccount, hrow, hrate]
  · simp [confirmRecoveryAccount, hrow, Nat.not_lt.mpr hrate, hexp]
  · simp [confirmRecoveryAccount, hnone]

/-- A live `(u1, RECOVERY)` code row issued at time 0. -/
def codeRowR : Code :=
  { userId := "u1", type := TypeCode.RECOVERY, tokens := ["123456"],
    createdAt := 0, expiresAt := 300000 }

/-- Store holding `userA` and the recovery code row `codeRowR`. -/
def dbC : Db := { users := [userA], sessions := [], codes := [codeRowR] }

/-- Witness for C3: at 1 s the matching code draws `Conflict`; at 400 s
(rate window passed, 5-minute window elapsed) the matching code draws
`Unauthorized`; an unknown code draws `Unauthorized`. -/
theorem confirmRecovery_rate_limit_then_expiry_witness :
    confirmRecoveryAccount hash0 1000 dbC "a@x.com" "123456" "npw"
      = (dbC, Except.error AuthError.Conflict)
    ∧ confirmRecoveryAccount hash0 400000 dbC "a@x.com" "123456" "npw"
      = (dbC, Except.error AuthError.Unauthorized)
    ∧ confirmRecoveryAccount hash0 1000 dbC "a@x.com" "999" "npw"
      = (dbC, Except.error AuthError.Unauthorized) :=
  ⟨((confirmRecovery_rate_limit_then_expiry hash0 1000 dbC "a@x.com" "123456"
        "npw").1 codeRowR (by decide)).1 (by decide),
   ((confirmRecovery_rate_limit_then_expiry hash0 400000 dbC "a@x.com" "123456"
        "npw").1 codeRowR (by decide)).2 (by decide) (by decide),
   (confirmRecovery_rate_limit_then_expiry hash0 1000 dbC "a@x.com" "999"
        "npw").2 (by decide)⟩

/-- C4: the database transition of `confirmRecoveryAccount` is independent of
the `email` argument — the row is located by token value alone, across all
users and types — and two calls differing only in `email` also agree on
success/failure and on the error thrown; the `email` argument surfaces only
as the recipient of the success notification. -/
theorem confirmRecovery_state_ignores_email (hashF : String → String)
    (now : Nat) (db : Db) (code newPassword e1 e2 : String) :
    (confirmRecoveryAccount hashF now db e1 code newPassword).1
      = (confirmRecoveryAccount hashF now db e2 code newPassword).1
    ∧ (confirmRecoveryAccount hashF now db e1 code newPassword).2.map (fun _ => ())
      = (confirmRecoveryAccount hashF now db e2 code newPassword).2.map (fun _ => ())
    ∧ (∀ r, (confirmRecoveryAccount hashF now db e1 code newPassword).2
          = Except.ok r → r = e1) := by
  unfold confirmRecoveryAccount
  cases hrow : findCodeByToken db.codes code with
  | none => exact ⟨rfl, rfl, fun r h => by cases h⟩
  | some row =>
    by_cases h1 : now < row.createdAt + MIN_TIME_TO_REQUEST
    · simp only [if_pos h1]
      exact ⟨trivial, trivial, fun r h => by cases h⟩
    · simp only [if_neg h1]
      by_cases h2 : ¬ row.tokens.contains code = true ∨
          row.createdAt + MAXINUM_AVAILABLE_TIME < now
      · simp only [if_pos h2]
        exact ⟨trivial, trivial, fun r h => by cases h⟩
      · simp only [if_neg h2]
        cases hupd : updatePasswordDeletingVerification hashF db row.userId newPassword with
        | mk db2 r0 =>
          cases r0 with
          | ok v =>
            cases v
            exact ⟨rfl, rfl, fun r h => by injection h with h2x; exact h2x.symm⟩
          | error e => exact ⟨rfl, rfl, fun r h => by cases h⟩

/-- Witness for C4 (the success-recipient conjunct has a hypothesis): with a
60-second-old live code and a `VERIFICATION` row on file, the success payload
is the email argument. -/
theorem confirmRecovery_state_ignores_email_witness :
    ((confirmRecoveryAccount hash0 70000
        { users := [userA], sessions := [],
          codes := [codeRowR,
                    { userId := "u1", type := TypeCode.VERIFICATION,
                      tokens := ["777"], createdAt := 0, expiresAt := 300000 }] }
        "b@y.org" "123456" "npw").2 = Except.ok "b@y.org") ∧
    (confirmRecoveryAccount hash0 70000
        { users := [userA], sessions := [],
          codes := [codeRowR,
                    { userId := "u1", type := TypeCode.VERIFICATION,
                      tokens := ["777"], createdAt := 0, expiresAt := 300000 }] }
        "b@y.org" "123456" "npw").1
      = (confirmRecoveryAccount hash0 70000
        { users := [userA], sessions := [],
          codes := [codeRowR,
                    { userId := "u1", type := TypeCode.VERIFICATION,
                      tokens := ["777"], createdAt := 0, expiresAt := 300000 }] }
        "c@z.org" "123456" "npw").1 :=
  ⟨by decide,
   (confirmRecovery_state_ignores_email hash0 70000
      { users := [userA], sessions := [],
        codes := [codeRowR,
                  { userId := "u1", type := TypeCode.VERIFICATION,
                    tokens := ["777"], createdAt := 0, expiresAt := 300000 }] }
      "123456" "npw" "b@y.org" "c@z.org").1⟩

/-- C5: `validate` returns a user record exactly when the signature/expiry
check passed, no store fault occurred along the way, the referenced user
exists, and that user has at least one session with `revoked = false`; and
its outcome is always either such a success or `Unauthorized` — store faults
and all other failures are normalized to `Unauthorized`.  (In particular,
after a logout that revokes the user's only session, no non-revoked session
remains and validation of a token referencing that user fails
`Unauthorized`.) -/
theorem validate_ok_iff (env : ValidateEnv) (db : Db) :
    (∀ u, validate env db = Except.ok u ↔
      (env.jwtSub = some u.id ∧ env.userLookupFault = false ∧
       env.sessionLookupFault = false ∧
       db.users.find? (fun x => x.id == u.id) = some u ∧
       ∃ s ∈ db.sessions, s.userId = u.id ∧ s.revoked = false))
    ∧ ((∃ u, validate env db = Except.ok u)
       ∨ validate env db = Except.error AuthError.Unauthorized) := by
  obtain ⟨j, f, fs⟩ := env
  constructor
  · intro u
    cases j with
    | none => simp [validate]
    | some sub =>
      cases f with
      | true => simp [validate]
      | false =>
        cases fs with
        | true =>
          simp only [validate, Bool.false_eq_true, if_false]
          split
          · simp
          · simp
        | false =>
          simp only [validate, Bool.false_eq_true, if_false]
          split
          · rename_i heq
            constructor
            · intro h; cases h
            · rintro ⟨h1, -, -, h4, -⟩
              injection h1 with h1
              subst h1
              rw [heq] at h4
              cases h4
          · rename_i user heq
            split
            · rename_i hss
              constructor
              · intro h; cases h
              · rintro ⟨h1, -, -, h4, s, hmem, hsu, hsr⟩
                injection h1 with h1
                subst h1
                rw [heq] at h4
                injection h4 with h4
                subst h4
                exact absurd (by simp [hsu, hsr])
                  (List.find?_eq_none.mp hss s hmem)
            · rename_i t hss
              constructor
              · intro h
                injection h with h2
                subst h2
                have hid : user.id = sub := by
                  have := List.find?_some heq
                  simpa using this
                subst hid
                have hts := List.find?_some hss
                simp only [Bool.and_eq_true, beq_iff_eq] at hts
                exact ⟨rfl, by trivial, by trivial, heq,
                       t, List.mem_of_find?_eq_some hss, hts.1, hts.2⟩
              · rintro ⟨h1, -, -, h4, -⟩
                injection h1 with h1
                subst h1
                rw [heq] at h4
                injection h4 with h4
                rw [h4]
  · cases j with
    | none => right; rfl
    | some sub =>
      cases f with
      | true => right; rfl
      | false =>
        cases fs with
        | true =>
          right
          simp only [validate, Bool.false_eq_true, if_false]
          split
          · rfl
          · rfl
        | false =>
          simp only [validate, Bool.false_eq_true, if_false]
          split
          · right; rfl
          · split
            · right; rfl
            · exact Or.inl ⟨_, rfl⟩

/-- C2 counterexample: with only `userA` on file, `recoveryAccount` at time 0
issues code `123456`, and `confirmRecoveryAccount` with that code one second
later — the claim's "immediately afterwards" — does NOT succeed: it fails
with `Conflict`, and the stored user rows (hence the password hash) are
unchanged. -/
theorem confirm_immediately_after_recovery_fails_concrete :
    (recoveryAccount "123456" 0 db1 "a@x.com").2 = Except.ok ("a@x.com", "123456")
    ∧ (confirmRecoveryAccount hash0 1000 (recoveryAccount "123456" 0 db1 "a@x.com").1
        "a@x.com" "123456" "npw").2 = Except.error AuthError.Conflict
    ∧ ((confirmRecoveryAccount hash0 1000 (recoveryAccount "123456" 0 db1 "a@x.com").1
        "a@x.com" "123456" "npw").1).users = [userA] := by decide

/-- C2 (amended): for a user with no pre-existing RECOVERY code row and a
generated code value occurring in no stored token list, `recoveryAccount`
succeeds, creating the code row with `createdAt` = issuance time; but a
`confirmRecoveryAccount` call made immediately afterwards — strictly within
60 seconds of issuance — fails with `Conflict` (the rate limit counts from
the row's creation), and the stored user rows, hence the password hash, are
unchanged. -/
theorem confirm_immediately_after_recovery_conflicts (hashF : String → String)
    (genCode : String) (now t : Nat) (db : Db) (email newPassword : String)
    (u : User)
    (hu : findPrimaryUserByEmail db email = some u)
    (hnorec : (db.codes.any fun c =>
        c.userId == u.id && c.type == TypeCode.RECOVERY) = false)
    (hfresh : ∀ c ∈ db.codes, genCode ∉ c.tokens)
    (ht : t < now + MIN_TIME_TO_REQUEST) :
    (recoveryAccount genCode now db email).2 = Except.ok (email, genCode)
    ∧ confirmRecoveryAccount hashF t (recoveryAccount genCode now db email).1
        email genCode newPassword
      = ((recoveryAccount genCode now db email).1, Except.error AuthError.Conflict)
    ∧ ((recoveryAccount genCode now db email).1).users = db.users := by
  have hrec1 : (recoveryAccount genCode now db email).1
      = { db with codes := db.codes ++
            [{ userId := u.id, type := TypeCode.RECOVERY, tokens := [genCode],
               createdAt := now, expiresAt := now + MAXINUM_AVAILABLE_TIME }] } := by
    simp [recoveryAccount, hu, upsertCode, hnorec]
  have hfind : findCodeByToken ((recoveryAccount genCode now db email).1).codes genCode
      = some { userId := u.id, type := TypeCode.RECOVERY, tokens := [genCode],
               createdAt := now, expiresAt := now + MAXINUM_AVAILABLE_TIME } := by
    rw [hrec1]
    unfold findCodeByToken
    rw [List.find?_append]
    have hnone : db.codes.find? (fun c => c.tokens.contains genCode) = none :=
      List.find?_eq_none.mpr fun c hc => by simpa using hfresh c hc
    rw [hnone]
    simp
  refine ⟨by simp [recoveryAccount, hu], ?_, by rw [hrec1]⟩
  simp only [confirmRecoveryAccount, hfind]
  rw [if_pos ht]

/-- Witness for C2's amended theorem at the concrete scenario: recovery for
`userA` at time 0, confirmation at one second. -/
theorem confirm_immediately_after_recovery_conflicts_witness :
    (recoveryAccount "123456" 0 db1 "a@x.com").2 = Except.ok ("a@x.com", "123456")
    ∧ confirmRecoveryAccount hash0 1000 (recoveryAccount "123456" 0 db1 "a@x.com").1
        "a@x.com" "123456" "npw"
      = ((recoveryAccount "123456" 0 db1 "a@x.com").1, Except.error AuthError.Conflict)
    ∧ ((recoveryAccount "123456" 0 db1 "a@x.com").1).users = db1.users :=
  confirm_immediately_after_recovery_conflicts hash0 "123456" 0 1000 db1
    "a@x.com" "npw" userA (by decide) (by decide) (by decide) (by decide)

/-- C8: when the code row matched by token is of type RECOVERY, the rate
limit has passed, the 5-minute window has not, and the owner has no
VERIFICATION-type row, the success-path update — which deletes the
`(userId, VERIFICATION)` row inside the same update that stores the new
hash — fails, and the whole store (hence the password hash) is unchanged:
a RECOVERY code alone never completes the reset. -/
theorem recovery_code_alone_never_resets (hashF : String → String) (now : Nat)
    (db : Db) (email code newPassword : String) (row : Code)
    (hrow : findCodeByToken db.codes code = some row)
    (hty : row.type = TypeCode.RECOVERY)
    (hrate : row.createdAt + MIN_TIME_TO_REQUEST ≤ now)
    (hexp : ¬ row.createdAt + MAXINUM_AVAILABLE_TIME < now)
    (hnover : (db.codes.any fun c => c.userId == row.userId
                && c.type == TypeCode.VERIFICATION) = false) :
    confirmRecoveryAccount hashF now db email code newPassword
      = (db, Except.error AuthError.Internal) := by
  have hcont : code ∈ row.tokens := by
    have := List.find?_some hrow
    simpa using this
  have hupd : updatePasswordDeletingVerification hashF db row.userId newPassword
      = (db, Except.error AuthError.Internal) := by
    unfold updatePasswordDeletingVerification
    cases db.users.find? fun v => v.id == row.userId with
    | none => rfl
    | some v => simp [hnover]
  simp only [confirmRecoveryAccount, hrow]
  rw [if_neg (Nat.not_lt.mpr hrate)]
  rw [if_neg (by simp [hcont, hexp])]
  rw [hupd]

/-- Witness for C8: the live 70-second-old RECOVERY code of `dbC` (whose
only code row is that RECOVERY row) cannot complete the reset. -/
theorem recovery_code_alone_never_resets_witness :
    confirmRecoveryAccount hash0 70000 dbC "a@x.com" "123456" "npw"
      = (dbC, Except.error AuthError.Internal) :=
  recovery_code_alone_never_resets hash0 70000 dbC "a@x.com" "123456" "npw"
    codeRowR (by decide) (by decide) (by decide) (by decide) (by decide)

/-- C9: `registerUser` fails `Conflict` (leaving the store unchanged) when
the email is already some account's primary email; otherwise it appends a
user whose `hashedPassword` is the hash of the supplied password and whose
`profileId` is the generated identifier, returns that record — hashed
password included — and a second registration under the same email then
fails `Conflict`. -/
theorem registerUser_conflict_and_create (hashF : String → String)
    (id1 pid1 id2 pid2 : String) (db : Db) (email p1 p2 dn1 dn2 : String) :
    (∀ u0, findPrimaryUserByEmail db email = some u0 →
      registerUser hashF id1 pid1 db email p1 dn1
        = (db, Except.error AuthError.Conflict))
    ∧ (findPrimaryUserByEmail db email = none →
      registerUser hashF id1 pid1 db email p1 dn1
        = ({ db with users := db.users ++
              [{ id := id1, profileId := pid1, primaryEmailValue := email,
                 hashedPassword := hashF p1, displayName := dn1 }] },
           Except.ok { id := id1, profileId := pid1, primaryEmailValue := email,
                       hashedPassword := hashF p1, displayName := dn1 })
      ∧ (registerUser hashF id2 pid2
           { db with users := db.users ++
              [{ id := id1, profileId := pid1, primaryEmailValue := email,
                 hashedPassword := hashF p1, displayName := dn1 }] }
           email p2 dn2).2 = Except.error AuthError.Conflict) := by
  constructor
  · intro u0 hu
    simp [registerUser, hu]
  · intro h
    have h2 : findPrimaryUserByEmail
        { db with users := db.users ++
            [{ id := id1, profileId := pid1, primaryEmailValue := email,
               hashedPassword := hashF p1, displayName := dn1 }] } email
        = some { id := id1, profileId := pid1, primaryEmailValue := email,
                 hashedPassword := hashF p1, displayName := dn1 } := by
      unfold findPrimaryUserByEmail at h ⊢
      rw [List.find?_append, h]
      simp
    exact ⟨by simp [registerUser, h], by simp [registerUser, h2]⟩

/-- Witness for C9: on a store holding only `userA`, registering `b@x.com`
succeeds and returns the record with the hashed password, and registering
`b@x.com` again fails `Conflict`. -/
theorem registerUser_conflict_and_create_witness :
    registerUser hash0 "u2" "p2" db1 "b@x.com" "pw2" "B"
      = ({ db1 with users := db1.users ++
            [{ id := "u2", profileId := "p2", primaryEmailValue := "b@x.com",
               hashedPassword := hash0 "pw2", displayName := "B" }] },
         Except.ok { id := "u2", profileId := "p2", primaryEmailValue := "b@x.com",
                     hashedPassword := hash0 "pw2", displayName := "B" })
    ∧ (registerUser hash0 "u3" "p3"
         { db1 with users := db1.users ++
            [{ id := "u2", profileId := "p2", primaryEmailValue := "b@x.com",
               hashedPassword := hash0 "pw2", displayName := "B" }] }
         "b@x.com" "pw3" "C").2 = Except.error AuthError.Conflict :=
  (registerUser_conflict_and_create hash0 "u2" "p2" "u3" "p3" db1
     "b@x.com" "pw2" "pw3" "B" "C").2 (by decide)

/-- C10: on every successful `changePassword` — the user exists and the old
password verifies — the plaintext old password is appended to the Redis
store keyed by the user's id with expiry `MAX_TIME_SAVE` = 2 592 000 seconds
(30 days), alongside the password-hash update on the User row. -/
theorem changePassword_writes_plaintext_old_password_to_redis
    (hashF : String → String) (verifyF : String → String → Bool)
    (db : Db) (redis : Redis) (uid oldPassword newPassword : String) (u : User)
    (hzero : uid ≠ "")
    (hu : db.users.find? (fun v => v.id == uid) = some u)
    (hv : verifyF u.hashedPassword oldPassword = true) :
    changePassword hashF verifyF db redis (some uid) oldPassword newPassword
      = (({ db with users := db.users.map fun v =>
              if v.id == uid then { v with hashedPassword := hashF newPassword }
              else v },
           { entries := redis.entries ++ [(uid, oldPassword, MAX_TIME_SAVE)] }),
         Except.ok { u with hashedPassword := hashF newPassword })
    ∧ MAX_TIME_SAVE = 2592000 := by
  constructor
  · simp [changePassword, jsOrStr, hzero, hu, hv]
  · rfl

/-- Witness for C10: `userA` changes password `pw1` to `pw2`; the Redis
store receives `("u1", "pw1", 2592000)`. -/
theorem changePassword_writes_plaintext_old_password_to_redis_witness :
    changePassword hash0 verify0 db1 { entries := [] } (some "u1") "pw1" "pw2"
      = (({ db1 with users := db1.users.map fun v =>
              if v.id == "u1" then { v with hashedPassword := hash0 "pw2" }
              else v },
           { entries := [] ++ [("u1", "pw1", MAX_TIME_SAVE)] }),
         Except.ok { userA with hashedPassword := hash0 "pw2" })
    ∧ MAX_TIME_SAVE = 2592000 :=
  changePassword_writes_plaintext_old_password_to_redis hash0 verify0 db1
    { entries := [] } "u1" "pw1" "pw2" userA (by decide) (by decide) (by decide)

/-- A session of user `u1`: the first row of the session table in `db7`. -/
def sessA : Session :=
  { id := "s1", userId := "u1", revoked := false, refreshTokenHashed := some "r1",
    deviceName := "d1", userAgent := "ua1", ipAddress := "ip1", createdAt := 0 }

/-- A session of a different user `u2`, the one named by the cookie in the
C7 counterexample. -/
def sessB : Session :=
  { id := "s2", userId := "u2", revoked := false, refreshTokenHashed := some "r2",
    deviceName := "d2", userAgent := "ua2", ipAddress := "ip2", createdAt := 1 }

/-- A store whose session table holds `sessA` then `sessB`. -/
def db7 : Db := { users := [], sessions := [sessA, sessB], codes := [] }

/-- C7 counterexample: with no explicit argument, `logout` resolves the id
from the cookie (`s2`) — but its earlier `findFirst` ran with an undefined
id filter and returned the table's first row (`s1`, owned by `u1`), so the
`updateMany` filter `{ id: "s2", userId: "u1" }` matches nothing: the call
reports success yet `sessB` keeps `revoked = false` and its stored
refresh-token hash. -/
theorem logout_cookie_only_leaves_session_unrevoked :
    logout db7 (some "s2") none = (db7, Except.ok ())
    ∧ sessB ∈ db7.sessions ∧ sessB.id = "s2"
    ∧ sessB.revoked = false ∧ sessB.refreshTokenHashed = some "r2" := by decide

/-- The `updateMany` of `logout` restricted to the filter `id = sid`: revoke
and clear the stored refresh-token hash of every row with this id. -/
def revokeById (sid : String) (l : List Session) : List Session :=
  l.map fun t =>
    if t.id == sid then { t with revoked := true, refreshTokenHashed := none }
    else t

/-- C7 (amended): `logout` fails `NotFound` when no session id is resolvable
(absent or empty argument and cookie); when the id is supplied as the
EXPLICIT argument and identifies a session (all rows with that id having the
same owner, as the schema's unique id guarantees), the identified row ends
with `revoked = true` and `refreshTokenHashed = null`, and a repeated logout
leaves the store unchanged (idempotent).  When the id is resolved only from
the cookie, the update is additionally filtered by the owner of the session
table's FIRST row and can leave the cookie's session untouched (see the
counterexample). -/
theorem logout_explicit_argument_revokes (db : Db) (cookie : Option String)
    (sid : String) (s : Session)
    (hsid : sid ≠ "")
    (hfind : db.sessions.find? (fun t => t.id == sid) = some s)
    (huniq : ∀ t ∈ db.sessions, t.id = sid → t.userId = s.userId) :
    logout db cookie (some sid)
      = ({ db with sessions := revokeById sid db.sessions }, Except.ok ())
    ∧ (logout (logout db cookie (some sid)).1 cookie (some sid)).1
        = (logout db cookie (some sid)).1
    ∧ logout db none none = (db, Except.error AuthError.NotFound)
    ∧ logout db (some "") none = (db, Except.error AuthError.NotFound) := by
  have hs : s.id = sid := by simpa using List.find?_some hfind
  have h1 : logout db cookie (some sid)
      = ({ db with sessions := revokeById sid db.sessions }, Except.ok ()) := by
    simp only [logout, jsOrStr, hfind, if_pos hsid, if_neg hsid]
    have hmap : (db.sessions.map fun t =>
        if t.id == sid && t.userId == s.userId then
          { t with revoked := true, refreshTokenHashed := none } else t)
        = revokeById sid db.sessions := by
      unfold revokeById
      refine List.map_congr_left fun t ht => ?_
      by_cases hid : t.id = sid
      · have huser := huniq t ht hid
        simp [hid, huser]
      · simp [hid]
    rw [hmap]
  refine ⟨h1, ?_, ?_, ?_⟩
  · rw [h1]
    have hfind2 : (revokeById sid db.sessions).find? (fun t => t.id == sid)
        = some { s with revoked := true, refreshTokenHashed := none } := by
      unfold revokeById
      rw [List.find?_map]
      have hcomp : ((fun t : Session => t.id == sid) ∘ fun t =>
          if t.id == sid then { t with revoked := true, refreshTokenHashed := none }
          else t) = fun t : Session => t.id == sid := by
        funext t
        by_cases hid : t.id = sid
        · simp [Function.comp, hid]
        · simp [Function.comp, hid]
      rw [hcomp, hfind]
      simp [hs]
    simp only [logout, jsOrStr, hfind2, if_pos hsid, if_neg hsid]
    have hmap2 : ((revokeById sid db.sessions).map fun t =>
        if t.id == sid && t.userId
            == (({ s with revoked := true, refreshTokenHashed := none } : Session)).userId
        then { t with revoked := true, refreshTokenHashed := none } else t)
        = revokeById sid db.sessions := by
      unfold revokeById
      rw [List.map_map]
      refine List.map_congr_left fun t ht => ?_
      by_cases hid : t.id = sid
      · have huser := huniq t ht hid
        simp [Function.comp, hid, huser]
      · simp [Function.comp, hid]
    rw [hmap2]
  · rfl
  · rfl

/-- Witness for C7's amended theorem: an explicit logout of `s1` on `db7`
revokes that row, clears its hash, and is idempotent. -/
theorem logout_explicit_argument_revokes_witness :
    logout db7 none (some "s1")
      = ({ db7 with sessions := revokeById "s1" db7.sessions }, Except.ok ())
    ∧ (logout (logout db7 none (some "s1")).1 none (some "s1")).1
        = (logout db7 none (some "s1")).1
    ∧ logout db7 none none = (db7, Except.error AuthError.NotFound)
    ∧ logout db7 (some "") none = (db7, Except.error AuthError.NotFound) :=
  logout_explicit_argument_revokes db7 none "s1" sessA (by decide) (by decide)
    (by decide)

/-- A fault-free validation context holding a verified token whose subject
is `u1`. -/
def env1 : ValidateEnv :=
  { jwtSub := some "u1", userLookupFault := false, sessionLookupFault := false }

/-- Witness for C5's characterization at a concrete state: a valid token for
`userA`, no store faults, and the non-revoked session `sessKnown` on file
make `validate` return the user record. -/
theorem validate_ok_iff_witness : validate env1 db1k = Except.ok userA :=
  ((validate_ok_iff env1 db1k).1 userA).mpr
    ⟨by decide, rfl, rfl, by decide, sessKnown, by decide, by decide, by decide⟩
